import Mathlib

/-!
# Verification of the rclcpp_lifecycle `LifecycleNode` template façade

Shallow embedding of `src/rclcpp_lifecycle/include/rclcpp_lifecycle/lifecycle_node_impl.hpp`:
the typed entity factories (`create_publisher`, `create_subscription`, timers, clients,
services, generic publisher/subscription) and the parameter declaration façade
(`declare_parameter`, `declare_parameters`, `get_parameter`, `get_parameters`,
`get_parameter_or`).

Conventions of the embedding:
* C++ member functions on `LifecycleNode` become Lean functions threading an explicit
  state value (`LifecycleNodeState` for the managed-entity registry, `NodeParameters`
  for the parameter store).
* C++ exceptions become `Except ParamError`; the state reached before a throw is not
  modelled, since no property below depends on it.
* `std::map` arguments are modelled as association lists in the map's iteration order,
  with unique keys.
* The compile-time template machinery of `rclcpp::ParameterValue` (construction from a
  typed value, `get<T>()`, type-tag inference) is modelled by the `ParameterConv` class,
  whose laws restate the per-type behavior of `ParameterValue`: a value round-trips
  through its own tag, and `get<T>()` on a value of a different tag fails with the
  type-mismatch error. Parameter descriptors carry no behavior used by any property
  below and are omitted.
-/

namespace RclcppLifecycle

/-- Runtime type tags of `rclcpp::ParameterValue` (`rclcpp::ParameterType`),
restricted to the payload kinds the development uses. -/
inductive ParameterType where
  | typeNotSet
  | typeBool
  | typeInteger
  | typeString
  deriving DecidableEq, Repr

/-- Model of `rclcpp::ParameterValue`: a runtime-tagged generic parameter value. -/
inductive ParameterValue where
  | notSet
  | ofBool (b : Bool)
  | ofInt (i : Int)
  | ofString (s : String)
  deriving DecidableEq, Repr

/-- Model of `rclcpp::ParameterValue::get_type()`. -/
def ParameterValue.get_type : ParameterValue → ParameterType
  | .notSet => .typeNotSet
  | .ofBool _ => .typeBool
  | .ofInt _ => .typeInteger
  | .ofString _ => .typeString

/-- The parameter-façade error kinds of the development
(`ParameterAlreadyDeclaredError`, `ParameterTypeMismatchError`,
`ParameterUninitializedError`). -/
inductive ParamError where
  | parameterAlreadyDeclared
  | parameterTypeMismatch
  | parameterUninitialized
  deriving DecidableEq, Repr

/-- The compile-time conversion machinery between a concrete C++ parameter type
`ParameterT` and the runtime-tagged `rclcpp::ParameterValue`:
`toValue` is the `ParameterValue(ParameterT)` constructor, `getValue` is the checked
`ParameterValue::get<ParameterT>()` (throwing, here `Except`, on tag mismatch), and
`typeTag` the tag `ParameterValue(ParameterT{}).get_type()`. The laws restate the
behavior of `rclcpp::ParameterValue` for each supported payload type. -/
class ParameterConv (α : Type) where
  toValue : α → ParameterValue
  getValue : ParameterValue → Except ParamError α
  typeTag : ParameterType
  toValue_type : ∀ a : α, (toValue a).get_type = typeTag
  getValue_toValue : ∀ a : α, getValue (toValue a) = .ok a
  getValue_mismatch : ∀ v : ParameterValue,
    v.get_type ≠ typeTag → getValue v = .error .parameterTypeMismatch
  getValue_match : ∀ v : ParameterValue,
    v.get_type = typeTag → ∃ a : α, getValue v = .ok a ∧ toValue a = v

instance : ParameterConv Bool where
  toValue := .ofBool
  getValue v := match v with
    | .ofBool b => .ok b
    | _ => .error .parameterTypeMismatch
  typeTag := .typeBool
  toValue_type _ := rfl
  getValue_toValue _ := rfl
  getValue_mismatch v h := by
    cases v <;> simp [ParameterValue.get_type] at h ⊢
  getValue_match v h := by
    cases v <;> simp [ParameterValue.get_type] at h ⊢

instance : ParameterConv Int where
  toValue := .ofInt
  getValue v := match v with
    | .ofInt i => .ok i
    | _ => .error .parameterTypeMismatch
  typeTag := .typeInteger
  toValue_type _ := rfl
  getValue_toValue _ := rfl
  getValue_mismatch v h := by
    cases v <;> simp [ParameterValue.get_type] at h ⊢
  getValue_match v h := by
    cases v <;> simp [ParameterValue.get_type] at h ⊢

instance : ParameterConv String where
  toValue := .ofString
  getValue v := match v with
    | .ofString s => .ok s
    | _ => .error .parameterTypeMismatch
  typeTag := .typeString
  toValue_type _ := rfl
  getValue_toValue _ := rfl
  getValue_mismatch v h := by
    cases v <;> simp [ParameterValue.get_type] at h ⊢
  getValue_match v h := by
    cases v <;> simp [ParameterValue.get_type] at h ⊢

/-- The node's parameter store, as seen through the façade: the declared
parameters (name and current generic value, in declaration order) and the
externally supplied overrides. -/
structure NodeParameters where
  params : List (String × ParameterValue)
  overrides : List (String × ParameterValue)
  deriving DecidableEq, Repr

/-- A `std::map::find`-style lookup in an association list (first entry wins;
the lists we build from `std::map` have unique keys). -/
def assocFind {α : Type} (m : List (String × α)) (k : String) : Option α :=
  match m with
  | [] => none
  | p :: rest => if p.1 = k then some p.2 else assocFind rest k

/-- Assignment `values[k] = v` on a `std::map` modelled as an association list: overwrite
the entry for `k` if present, otherwise append a new entry. -/
def assocSet {α : Type} (m : List (String × α)) (k : String) (v : α) :
    List (String × α) :=
  match m with
  | [] => [(k, v)]
  | p :: rest => if p.1 = k then (k, v) :: rest else p :: assocSet rest k v

/-- Modelled from the spec: the untyped
`LifecycleNode::declare_parameter(name, rclcpp::ParameterValue, descriptor, ignore_override)`,
whose body is not among the provided sources (only its typed callers are).
Per §4.5 it registers a new named parameter; if an override exists for `name` and
`ignore_override` is false the override value is used instead of the default; it
fails with `ParameterAlreadyDeclaredError` if `name` already has a declaration.
Per §9 the type check against `ParameterT` lives in the typed façade's checked
conversion, not here. -/
def NodeParameters.declare_parameter_value (st : NodeParameters) (name : String)
    (default_value : ParameterValue) (ignore_override : Bool) :
    Except ParamError (ParameterValue × NodeParameters) :=
  if (assocFind st.params name).isSome then
    .error .parameterAlreadyDeclared
  else
    let chosen := match (if ignore_override then none else assocFind st.overrides name) with
      | some ov => ov
      | none => default_value
    .ok (chosen, { st with params := st.params ++ [(name, chosen)] })

/-- Modelled from the spec: the untyped
`LifecycleNode::declare_parameter(name, rclcpp::ParameterType, descriptor, ignore_override)`
(no default value), whose body is not among the provided sources. Per §4.5 it
follows the same contract as the defaulted overload but requires an override,
failing with `ParameterUninitializedError` if none exists, and with
`ParameterTypeMismatchError` if the override's type is incompatible with the
declared type tag. -/
def NodeParameters.declare_parameter_with_type (st : NodeParameters) (name : String)
    (ty : ParameterType) (ignore_override : Bool) :
    Except ParamError (ParameterValue × NodeParameters) :=
  if (assocFind st.params name).isSome then
    .error .parameterAlreadyDeclared
  else
    match (if ignore_override then none else assocFind st.overrides name) with
    | some ov =>
        if ov.get_type = ty then
          .ok (ov, { st with params := st.params ++ [(name, ov)] })
        else
          .error .parameterTypeMismatch
    | none => .error .parameterUninitialized

/-- Model of `LifecycleNode::declare_parameter<ParameterT>(name, default_value, descriptor,
ignore_override)` (lifecycle_node_impl.hpp, lines 215-229): wraps the default in a
`ParameterValue`, delegates to the untyped overload, and returns the declared value
through the checked `get<ParameterT>()`. -/
def declare_parameter (α : Type) [ParameterConv α] (st : NodeParameters)
    (name : String) (default_value : α) (ignore_override : Bool) :
    Except ParamError (α × NodeParameters) := do
  let (v, st') ← st.declare_parameter_value name
    (ParameterConv.toValue default_value) ignore_override
  let a ← (ParameterConv.getValue v : Except ParamError α)
  return (a, st')

/-- Model of `LifecycleNode::declare_parameter<ParameterT>(name, descriptor, ignore_override)`
(no default; lifecycle_node_impl.hpp, lines 231-247): builds
`rclcpp::ParameterValue value{ParameterT{}}` from a value-initialized `ParameterT`
to obtain the declared type tag, delegates to the untyped type-only overload, and
returns the declared value through the checked `get<ParameterT>()`. -/
def declare_parameter_no_default (α : Type) [ParameterConv α] [Inhabited α]
    (st : NodeParameters) (name : String) (ignore_override : Bool) :
    Except ParamError (α × NodeParameters) := do
  let value := ParameterConv.toValue (default : α)
  let (v, st') ← st.declare_parameter_with_type name value.get_type ignore_override
  let a ← (ParameterConv.getValue v : Except ParamError α)
  return (a, st')

/-- The `std::transform` loop of `LifecycleNode::declare_parameters`, threading the
node state through the per-entry `declare_parameter` calls in iteration order. -/
def declare_parameters_go (α : Type) [ParameterConv α] (normalized_namespace : String) :
    List (String × α) → NodeParameters → Except ParamError (List α × NodeParameters)
  | [], st => .ok ([], st)
  | e :: rest, st => do
    let (a, st') ← declare_parameter α st (normalized_namespace ++ e.1) e.2 false
    let (as, st'') ← declare_parameters_go α normalized_namespace rest st'
    return (a :: as, st'')

/-- Model of `LifecycleNode::declare_parameters<ParameterT>(namespace_, parameters)`
(lifecycle_node_impl.hpp, lines 249-264): computes
`normalized_namespace = namespace_.empty() ? "" : namespace_ + "."` and declares
`normalized_namespace + key` for each entry of the map, collecting the resulting
values in iteration order. -/
def declare_parameters (α : Type) [ParameterConv α] (st : NodeParameters)
    (namespace_ : String) (parameters : List (String × α)) :
    Except ParamError (List α × NodeParameters) :=
  let normalized_namespace := if namespace_ = "" then "" else namespace_ ++ "."
  declare_parameters_go α normalized_namespace parameters st

/-- Modelled from the spec: the untyped
`LifecycleNode::get_parameter(name, rclcpp::Parameter &)`, whose body is not among
the provided sources. Per §4.5 it fetches by name and reports via boolean whether
the parameter was found, leaving the out-argument unchanged when not found. -/
def NodeParameters.get_parameter_value (st : NodeParameters) (name : String)
    (param : ParameterValue) : Bool × ParameterValue :=
  match assocFind st.params name with
  | some v => (true, v)
  | none => (false, param)

/-- Model of `LifecycleNode::get_parameter<ParameterT>(name, parameter)`
(lifecycle_node_impl.hpp, lines 291-300): builds `rclcpp::Parameter param(name,
parameter)` from the out-argument's current value, calls the untyped
`get_parameter`, and unconditionally writes `param.get_value<ParameterT>()` back
into the out-argument, returning the found flag. -/
def get_parameter (α : Type) [ParameterConv α] (st : NodeParameters)
    (name : String) (parameter : α) : Except ParamError (Bool × α) := do
  let param := ParameterConv.toValue parameter
  let (result, param') := st.get_parameter_value name param
  let a ← (ParameterConv.getValue param' : Except ParamError α)
  return (result, a)

/-- The merge loop of `LifecycleNode::get_parameters`:
`for (param : params) values[param.first] = param.second.get_value<MapValueT>();`. -/
def merge_fetched (α : Type) [ParameterConv α] :
    List (String × ParameterValue) → List (String × α) →
    Except ParamError (List (String × α))
  | [], vs => .ok vs
  | p :: rest, vs => do
    let a ← (ParameterConv.getValue p.2 : Except ParamError α)
    merge_fetched α rest (assocSet vs p.1 a)

/-- Model of `LifecycleNode::get_parameters<MapValueT>(prefix, values)`
(lifecycle_node_impl.hpp, lines 305-320): asks the external parameter service
`node_parameters_->get_parameters_by_prefix` for the matching parameters — modelled
here by passing that call's outcome `fetched` (its boolean result and the map of
suffix-keyed parameters it filled) as an argument, since the service is an external
collaborator — and merges them into `values` only when the result is true; the
boolean result is returned either way. -/
def get_parameters (α : Type) [ParameterConv α]
    (fetched : Bool × List (String × ParameterValue))
    (values : List (String × α)) : Except ParamError (Bool × List (String × α)) :=
  if fetched.1 then do
    let values' ← merge_fetched α fetched.2 values
    return (true, values')
  else
    return (false, values)

/-- Model of `LifecycleNode::get_parameter_or<ParameterT>(name, value, alternative_value)`
(lifecycle_node_impl.hpp, lines 322-334): calls the typed `get_parameter` on the
out-argument and overwrites it with the alternative when not found, returning the
found flag. -/
def get_parameter_or (α : Type) [ParameterConv α] (st : NodeParameters)
    (name : String) (value alternative_value : α) : Except ParamError (Bool × α) := do
  let (got_parameter, value') ← get_parameter α st name value
  return (got_parameter, if got_parameter then value' else alternative_value)

/-- The node-side state the entity factories touch: the managed-entity registry
(weak references in insertion order, here entity handles) and the supply of fresh
endpoint handles produced by the external middleware binding. -/
structure LifecycleNodeState where
  managed_entities : List Nat
  next_handle : Nat
  deriving DecidableEq, Repr

/-- The external middleware binding (`rclcpp::create_publisher`,
`rclcpp::create_subscription`, `rclcpp::create_wall_timer`, `rclcpp::create_timer`,
`rclcpp::create_client`, `rclcpp::create_service`,
`rclcpp::create_generic_publisher`, `rclcpp::create_generic_subscription`): it
allocates the underlying endpoint and hands back a fresh strong handle. It is an
external collaborator with no access to the node's managed-entity registry. -/
def middleware_create (st : LifecycleNodeState) : Nat × LifecycleNodeState :=
  (st.next_handle, { st with next_handle := st.next_handle + 1 })

/-- Modelled from the spec: `LifecycleNode::add_managed_entity`, whose body is not
among the provided sources (only its callers are). Per §4.3 it stores a weak
reference to the entity in the node's registry, keyed by insertion order. -/
def add_managed_entity (st : LifecycleNodeState) (entity : Nat) :
    LifecycleNodeState :=
  { st with managed_entities := st.managed_entities ++ [entity] }

/-- Model of `LifecycleNode::create_publisher<MessageT>` (lifecycle_node_impl.hpp, lines
52-67): delegate to `rclcpp::create_publisher`, then `this->add_managed_entity(pub)`
and return `pub`. -/
def create_publisher (st : LifecycleNodeState) : Nat × LifecycleNodeState :=
  let (pub, st') := middleware_create st
  let st'' := add_managed_entity st' pub
  (pub, st'')

/-- Model of `LifecycleNode::create_subscription<MessageT>` (lifecycle_node_impl.hpp, lines
69-92): delegate to `rclcpp::create_subscription`, then
`this->add_managed_entity(sub)` and return `sub`. -/
def create_subscription (st : LifecycleNodeState) : Nat × LifecycleNodeState :=
  let (sub, st') := middleware_create st
  let st'' := add_managed_entity st' sub
  (sub, st'')

/-- Model of `LifecycleNode::create_wall_timer` (lifecycle_node_impl.hpp, lines 94-107):
a bare delegation to `rclcpp::create_wall_timer`; no registry interaction. -/
def create_wall_timer (st : LifecycleNodeState) : Nat × LifecycleNodeState :=
  middleware_create st

/-- Model of `LifecycleNode::create_timer` (lifecycle_node_impl.hpp, lines 109-123):
a bare delegation to `rclcpp::create_timer`; no registry interaction. -/
def create_timer (st : LifecycleNodeState) : Nat × LifecycleNodeState :=
  middleware_create st

/-- Model of `LifecycleNode::create_client` (both overloads; lifecycle_node_impl.hpp, lines
125-147): a bare delegation to `rclcpp::create_client`; no registry interaction. -/
def create_client (st : LifecycleNodeState) : Nat × LifecycleNodeState :=
  middleware_create st

/-- Model of `LifecycleNode::create_service` (both overloads; lifecycle_node_impl.hpp, lines
149-173): a bare delegation to `rclcpp::create_service`; no registry interaction. -/
def create_service (st : LifecycleNodeState) : Nat × LifecycleNodeState :=
  middleware_create st

/-- Model of `LifecycleNode::create_generic_publisher` (lifecycle_node_impl.hpp, lines
175-192): a bare delegation to `rclcpp::create_generic_publisher`; no registry
interaction. -/
def create_generic_publisher (st : LifecycleNodeState) : Nat × LifecycleNodeState :=
  middleware_create st

/-- Model of `LifecycleNode::create_generic_subscription` (lifecycle_node_impl.hpp, lines
194-213): a bare delegation to `rclcpp::create_generic_subscription`; no registry
interaction. -/
def create_generic_subscription (st : LifecycleNodeState) :
    Nat × LifecycleNodeState :=
  middleware_create st

/-! ## Helper lemmas -/

/-- Derived law: `getValue` succeeds only on the image of `toValue`. -/
theorem ParameterConv.toValue_of_getValue {α : Type} [ParameterConv α]
    (v : ParameterValue) (a : α) (h : getValue v = Except.ok a) : toValue a = v := by
  by_cases hty : v.get_type = typeTag α
  · obtain ⟨b, hb, hbv⟩ := getValue_match (α := α) v hty
    rw [h] at hb
    cases hb
    exact hbv
  · rw [getValue_mismatch (α := α) v hty] at h
    cases h

theorem assocFind_assocSet_self {α : Type} (m : List (String × α)) (k : String)
    (v : α) : assocFind (assocSet m k v) k = some v := by
  induction m with
  | nil => simp [assocSet, assocFind]
  | cons p rest ih =>
      by_cases h : p.1 = k
      · simp [assocSet, assocFind, h]
      · simp [assocSet, assocFind, h, ih]

theorem assocFind_assocSet_ne {α : Type} (m : List (String × α)) (k k' : String)
    (v : α) (h : k' ≠ k) : assocFind (assocSet m k v) k' = assocFind m k' := by
  have hk : ¬ k = k' := fun hh => h hh.symm
  induction m with
  | nil => simp [assocSet, assocFind, hk]
  | cons p rest ih =>
      by_cases hp : p.1 = k
      · subst hp
        simp [assocSet, assocFind, hk]
      · simp [assocSet, assocFind, hp, ih]

theorem except_bind_ok {ε α β : Type} (x : α) (f : α → Except ε β) :
    (Except.ok x : Except ε α) >>= f = f x := rfl

theorem except_bind_error {ε α β : Type} (e : ε) (f : α → Except ε β) :
    ((Except.error e : Except ε α) >>= f : Except ε β) = Except.error e := rfl

theorem except_pure_eq {ε α : Type} (x : α) :
    (pure x : Except ε α) = Except.ok x := rfl

theorem declare_parameter_eq (α : Type) [ParameterConv α] (st : NodeParameters)
    (name : String) (default_value : α) (ignore_override : Bool) :
    declare_parameter α st name default_value ignore_override
      = match st.declare_parameter_value name (ParameterConv.toValue default_value)
          ignore_override with
        | .error e => .error e
        | .ok (v, st') =>
          match (ParameterConv.getValue v : Except ParamError α) with
          | .error e => .error e
          | .ok a => .ok (a, st') := by
  unfold declare_parameter
  rcases st.declare_parameter_value name (ParameterConv.toValue default_value)
      ignore_override with e | ⟨v, st'⟩
  · simp only [except_bind_error]
  · simp only [except_bind_ok]
    rcases hg : (ParameterConv.getValue v : Except ParamError α) with e | a <;>
      simp [hg]

theorem declare_parameter_value_not_declared (st : NodeParameters) (name : String)
    (dv : ParameterValue) (hf : assocFind st.params name = none) :
    st.declare_parameter_value name dv false
      = .ok
          (match assocFind st.overrides name with
            | some ov => ov
            | none => dv,
          { st with
            params := st.params ++
              [(name,
                match assocFind st.overrides name with
                | some ov => ov
                | none => dv)] }) := by
  unfold NodeParameters.declare_parameter_value
  simp [hf]

theorem declare_parameter_ok_shape (α : Type) [ParameterConv α]
    (st st' : NodeParameters) (name : String) (default_value : α) (a : α)
    (h : declare_parameter α st name default_value false = .ok (a, st')) :
    st'.params = st.params ++ [(name, ParameterConv.toValue a)] ∧
    st'.overrides = st.overrides := by
  rw [declare_parameter_eq] at h
  rcases hdv : st.declare_parameter_value name
      (ParameterConv.toValue default_value) false with e | ⟨v, st''⟩
  · rw [hdv] at h
    cases h
  · rw [hdv] at h
    rcases hg : (ParameterConv.getValue v : Except ParamError α) with e | b
    · simp [hg] at h
    · simp only [hg, Except.ok.injEq, Prod.mk.injEq] at h
      obtain ⟨hab, hst⟩ := h
      subst hst
      have hv : ParameterConv.toValue a = v :=
        hab ▸ ParameterConv.toValue_of_getValue v b hg
      unfold NodeParameters.declare_parameter_value at hdv
      by_cases hf : (assocFind st.params name).isSome
      · simp [hf] at hdv
      · simp only [Bool.not_eq_true] at hf
        simp only [hf, Bool.false_eq_true, if_false, if_neg, Except.ok.injEq,
          Prod.mk.injEq] at hdv
        obtain ⟨hchosen, hst2⟩ := hdv
        subst hchosen
        subst hst2
        simp [hv]

/-! ## Claim theorems -/

/-- C1: every successful `create_publisher` / `create_subscription` call registers
the newly created entity with the node's managed-entity registry via
`add_managed_entity` — the registry gains exactly that entity, appended in
insertion order — and the registered entity is the same object as the strong
handle returned to the caller. -/
theorem create_publisher_and_subscription_register (st : LifecycleNodeState) :
    (create_publisher st).2.managed_entities
        = st.managed_entities ++ [(create_publisher st).1] ∧
    (create_subscription st).2.managed_entities
        = st.managed_entities ++ [(create_subscription st).1] :=
  ⟨rfl, rfl⟩

/-- C2: `create_generic_publisher`, `create_generic_subscription`,
`create_wall_timer`, `create_timer`, `create_client` and `create_service` are bare
delegations to the middleware binding: the managed-entity registry is left
unchanged (no `add_managed_entity` call occurs), so the produced object is never
reached by the enable/disable broadcast over that registry. -/
theorem unmanaged_factories_preserve_registry (st : LifecycleNodeState) :
    (create_generic_publisher st).2.managed_entities = st.managed_entities ∧
    (create_generic_subscription st).2.managed_entities = st.managed_entities ∧
    (create_wall_timer st).2.managed_entities = st.managed_entities ∧
    (create_timer st).2.managed_entities = st.managed_entities ∧
    (create_client st).2.managed_entities = st.managed_entities ∧
    (create_service st).2.managed_entities = st.managed_entities :=
  ⟨rfl, rfl, rfl, rfl, rfl, rfl⟩

/-- C3: `get_parameter<T>(name, out)` reports found/not-found via its boolean
result rather than an exception: when no parameter with that name exists it
returns `false` and leaves the out-argument unchanged (the value written back is
the one the `rclcpp::Parameter` was built from), and when the parameter is found
with a value convertible to `T` it returns `true` with that value. -/
theorem get_parameter_reports_found (α : Type) [ParameterConv α]
    (st : NodeParameters) (name : String) (out : α) :
    (assocFind st.params name = none →
      get_parameter α st name out = .ok (false, out)) ∧
    (∀ (v : ParameterValue) (a : α), assocFind st.params name = some v →
      (ParameterConv.getValue v : Except ParamError α) = .ok a →
      get_parameter α st name out = .ok (true, a)) := by
  constructor
  · intro hn
    unfold get_parameter NodeParameters.get_parameter_value
    simp [hn, ParameterConv.getValue_toValue, except_bind_ok]
  · intro v a hv ha
    unfold get_parameter NodeParameters.get_parameter_value
    simp [hv, ha, except_bind_ok]

/-- Witness for C3 at a concrete input: probing an undeclared name returns
`false` and leaves the out-argument `5` unchanged. -/
theorem get_parameter_reports_found_witness :
    get_parameter Int { params := [], overrides := [] } "x" 5
      = .ok (false, 5) :=
  (get_parameter_reports_found Int { params := [], overrides := [] } "x" 5).1 rfl

/-- C4: `declare_parameters("", {k: v})` adds no prefix and no leading separator
when the namespace is the empty string: it is the same computation as declaring
`k` directly (one declaration, name exactly `k`). -/
theorem declare_parameters_empty_namespace (α : Type) [ParameterConv α]
    (st : NodeParameters) (k : String) (v : α) :
    declare_parameters α st "" [(k, v)]
      = Except.map (fun p => ([p.1], p.2)) (declare_parameter α st k v false) := by
  unfold declare_parameters declare_parameters_go
  simp only [if_pos rfl, String.empty_append]
  rcases hdp : declare_parameter α st k v false with e | ⟨a, st'⟩
  · simp [hdp, except_bind_error, Except.map]
  · simp [hdp, except_bind_ok, declare_parameters_go, Except.map]

/-- C6: `get_parameter_or<T>(name, out, alternative)` returns whether the
parameter was found and always leaves the out-argument populated: the parameter's
value when found (and convertible to `T`), the alternative when not found. -/
theorem get_parameter_or_spec (α : Type) [ParameterConv α]
    (st : NodeParameters) (name : String) (out alt : α) :
    (assocFind st.params name = none →
      get_parameter_or α st name out alt = .ok (false, alt)) ∧
    (∀ (v : ParameterValue) (a : α), assocFind st.params name = some v →
      (ParameterConv.getValue v : Except ParamError α) = .ok a →
      get_parameter_or α st name out alt = .ok (true, a)) := by
  constructor
  · intro hn
    unfold get_parameter_or get_parameter NodeParameters.get_parameter_value
    simp [hn, ParameterConv.getValue_toValue, except_bind_ok]
  · intro v a hv ha
    unfold get_parameter_or get_parameter NodeParameters.get_parameter_value
    simp [hv, ha, except_bind_ok]

/-- Witness for C6 at a concrete input: an undeclared name yields `false` with
the out-argument set to the alternative `9`. -/
theorem get_parameter_or_spec_witness :
    get_parameter_or Int { params := [], overrides := [] } "x" 5 9
      = .ok (false, 9) :=
  (get_parameter_or_spec Int { params := [], overrides := [] } "x" 5 9).1 rfl

theorem declare_parameters_go_spec (α : Type) [ParameterConv α] (nn : String) :
    ∀ (m : List (String × α)) (st st' : NodeParameters) (vals : List α),
      declare_parameters_go α nn m st = .ok (vals, st') →
      vals.length = m.length ∧
      st'.params = st.params ++
        (m.map (fun e => nn ++ e.1)).zip (vals.map ParameterConv.toValue) := by
  intro m
  induction m with
  | nil =>
      intro st st' vals h
      simp only [declare_parameters_go, Except.ok.injEq, Prod.mk.injEq] at h
      obtain ⟨hv, hst⟩ := h
      subst hv
      subst hst
      simp
  | cons e rest ih =>
      intro st st' vals h
      simp only [declare_parameters_go] at h
      rcases hdp : declare_parameter α st (nn ++ e.1) e.2 false with er | ⟨a, st1⟩
      · rw [hdp] at h
        simp [except_bind_error] at h
      · rw [hdp] at h
        simp only [except_bind_ok] at h
        rcases hgo : declare_parameters_go α nn rest st1 with er | ⟨as, st2⟩
        · rw [hgo] at h
          simp [except_bind_error] at h
        · rw [hgo] at h
          simp only [except_bind_ok, except_pure_eq, Except.ok.injEq,
            Prod.mk.injEq] at h
          obtain ⟨hv, hst⟩ := h
          subst hv
          subst hst
          obtain ⟨hlen, hparams⟩ := ih st1 st2 as hgo
          obtain ⟨hp1, _⟩ :=
            declare_parameter_ok_shape α st st1 (nn ++ e.1) e.2 a hdp
          refine ⟨by simp [hlen], ?_⟩
          rw [hparams, hp1]
          simp [List.append_assoc]

/-- C5: for a non-empty namespace, `declare_parameters(ns, m)` declares exactly
one parameter per mapping entry, named `ns + "." + key`, in the mapping's
iteration order, and on success returns one resulting value per entry (same
length, same order; the parameter store gains exactly the name/value pairs of the
returned values). -/
theorem declare_parameters_prefixed (α : Type) [ParameterConv α]
    (n : String) (m : List (String × α)) (st st' : NodeParameters) (vals : List α)
    (hns : n ≠ "")
    (hok : declare_parameters α st n m = .ok (vals, st')) :
    vals.length = m.length ∧
    st'.params = st.params ++
      (m.map (fun e => n ++ "." ++ e.1)).zip (vals.map ParameterConv.toValue) := by
  unfold declare_parameters at hok
  rw [if_neg hns] at hok
  exact declare_parameters_go_spec α (n ++ ".") m st st' vals hok

/-- Witness for C5 at the spec's scenario:
`declare_parameters("sensor", {"rate": 10, "enabled": 1})` yields the two values
in iteration order and the store gains `sensor.rate` and `sensor.enabled`. -/
theorem declare_parameters_prefixed_witness :
    ([(10 : Int), 1]).length = ([("rate", (10 : Int)), ("enabled", 1)]).length ∧
    ([("sensor.rate", ParameterValue.ofInt 10),
      ("sensor.enabled", ParameterValue.ofInt 1)] : List (String × ParameterValue))
      = [] ++
        (([("rate", (10 : Int)), ("enabled", 1)]).map
            (fun e => "sensor" ++ "." ++ e.1)).zip
          (([(10 : Int), 1]).map ParameterConv.toValue) :=
  declare_parameters_prefixed Int "sensor" [("rate", 10), ("enabled", 1)]
    { params := [], overrides := [] }
    { params := [("sensor.rate", ParameterValue.ofInt 10),
        ("sensor.enabled", ParameterValue.ofInt 1)], overrides := [] }
    [10, 1] (by decide) rfl

/-- C7: the no-default `declare_parameter<T>(name, descriptor, ignore_overrides)`
takes its declared type tag from a value-initialized `T` (`ParameterT{}`, modelled
by `default`); for an undeclared name it fails with `ParameterUninitializedError`
when no override exists, and otherwise declares and returns exactly the override's
value. -/
theorem declare_parameter_no_default_spec (α : Type) [ParameterConv α]
    [Inhabited α] (st : NodeParameters) (name : String)
    (hnd : assocFind st.params name = none) :
    (assocFind st.overrides name = none →
      declare_parameter_no_default α st name false
        = .error .parameterUninitialized) ∧
    (∀ ov : ParameterValue, assocFind st.overrides name = some ov →
      ov.get_type = (ParameterConv.toValue (default : α)).get_type →
      ∃ a : α, declare_parameter_no_default α st name false
          = .ok (a, { st with params := st.params ++ [(name, ov)] }) ∧
        ParameterConv.toValue a = ov) := by
  constructor
  · intro hov
    unfold declare_parameter_no_default NodeParameters.declare_parameter_with_type
    simp [hnd, hov, except_bind_error]
  · intro ov hov hty
    have hty' : ov.get_type = ParameterConv.typeTag (α := α) := by
      rw [hty, ParameterConv.toValue_type]
    obtain ⟨a, hga, hta⟩ := ParameterConv.getValue_match (α := α) ov hty'
    refine ⟨a, ?_, hta⟩
    unfold declare_parameter_no_default NodeParameters.declare_parameter_with_type
    simp [hnd, hov, hty, hga, except_bind_ok]

/-- Witness for C7 at a concrete input: with no override for `"x"`, the
no-default declaration fails with the uninitialized error. -/
theorem declare_parameter_no_default_spec_witness :
    declare_parameter_no_default Int { params := [], overrides := [] } "x" false
      = .error .parameterUninitialized :=
  (declare_parameter_no_default_spec Int
    { params := [], overrides := [] } "x" rfl).1 rfl

/-- C8: the defaulted `declare_parameter<T>` surfaces the declared value through
the checked `get<T>()` conversion: when an existing override's runtime type is
incompatible with `T`, the call fails with `ParameterTypeMismatchError` instead of
returning an unchecked-cast value. -/
theorem declare_parameter_checked_mismatch (α : Type) [ParameterConv α]
    (st : NodeParameters) (name : String) (default_value : α)
    (ov : ParameterValue)
    (hnd : assocFind st.params name = none)
    (hov : assocFind st.overrides name = some ov)
    (hty : ov.get_type ≠ ParameterConv.typeTag (α := α)) :
    declare_parameter α st name default_value false
      = .error .parameterTypeMismatch := by
  rw [declare_parameter_eq,
    declare_parameter_value_not_declared st name _ hnd]
  simp [hov, ParameterConv.getValue_mismatch (α := α) ov hty]

/-- Witness for C8 at a concrete input: an override of boolean type for a
parameter declared at integer type makes the typed declaration fail with the
type-mismatch error. -/
theorem declare_parameter_checked_mismatch_witness :
    declare_parameter Int
      { params := [], overrides := [("x", ParameterValue.ofBool true)] }
      "x" 0 false
      = .error .parameterTypeMismatch :=
  declare_parameter_checked_mismatch Int
    { params := [], overrides := [("x", ParameterValue.ofBool true)] }
    "x" 0 (ParameterValue.ofBool true) rfl rfl (by decide)

/-- C9: when the underlying `get_parameters_by_prefix` lookup reports failure,
`get_parameters` returns `false` and the caller's mapping is returned completely
unchanged — the merge loop is never entered. -/
theorem get_parameters_failure_frame (α : Type) [ParameterConv α]
    (fetched_params : List (String × ParameterValue))
    (values : List (String × α)) :
    get_parameters α (false, fetched_params) values = .ok (false, values) := rfl

theorem merge_fetched_ok_notin (α : Type) [ParameterConv α] :
    ∀ (ps : List (String × ParameterValue)) (vs out : List (String × α))
      (k : String),
      (∀ p ∈ ps, p.1 ≠ k) →
      merge_fetched α ps vs = .ok out →
      assocFind out k = assocFind vs k := by
  intro ps
  induction ps with
  | nil =>
      intro vs out k _ h
      simp only [merge_fetched, Except.ok.injEq] at h
      rw [h]
  | cons p rest ih =>
      intro vs out k hk h
      simp only [merge_fetched] at h
      rcases hg : (ParameterConv.getValue p.2 : Except ParamError α) with e | a
      · rw [hg] at h
        simp [except_bind_error] at h
      · rw [hg] at h
        simp only [except_bind_ok] at h
        rw [ih (assocSet vs p.1 a) out k
          (fun q hq => hk q (List.mem_cons_of_mem _ hq)) h]
        exact assocFind_assocSet_ne vs p.1 k a
          (Ne.symm (hk p (List.mem_cons_self p rest)))

theorem merge_fetched_ok_mem (α : Type) [ParameterConv α] :
    ∀ (ps : List (String × ParameterValue)) (vs out : List (String × α))
      (k : String) (v : ParameterValue) (a : α),
      (ps.map Prod.fst).Nodup →
      (k, v) ∈ ps →
      (ParameterConv.getValue v : Except ParamError α) = .ok a →
      merge_fetched α ps vs = .ok out →
      assocFind out k = some a := by
  intro ps
  induction ps with
  | nil =>
      intro vs out k v a _ hm
      cases hm
  | cons p rest ih =>
      intro vs out k v a hnd hm hg h
      simp only [List.map_cons, List.nodup_cons] at hnd
      obtain ⟨hnotin, hnd'⟩ := hnd
      rcases List.mem_cons.mp hm with heq | hmem
      · subst heq
        simp only [merge_fetched] at h
        rw [hg] at h
        simp only [except_bind_ok] at h
        have hk : ∀ q ∈ rest, q.1 ≠ k := by
          intro q hq hqk
          have hq1 : q.1 ∈ List.map Prod.fst rest :=
            List.mem_map_of_mem Prod.fst hq
          rw [hqk] at hq1
          exact hnotin hq1
        rw [merge_fetched_ok_notin α rest (assocSet vs k a) out k hk h]
        exact assocFind_assocSet_self vs k a
      · simp only [merge_fetched] at h
        rcases hg2 : (ParameterConv.getValue p.2 : Except ParamError α) with e | b
        · rw [hg2] at h
          simp [except_bind_error] at h
        · rw [hg2] at h
          simp only [except_bind_ok] at h
          exact ih (assocSet vs p.1 b) out k v a hnd' hmem hg h

/-- C10: when `get_parameters` succeeds it merges the fetched parameters into the
caller's mapping without clearing it: entries whose keys are not among the fetched
suffixes are preserved, and entries whose keys collide with fetched suffixes are
overwritten with the fetched values. -/
theorem get_parameters_success_merge (α : Type) [ParameterConv α]
    (ps : List (String × ParameterValue)) (values final : List (String × α))
    (hnd : (ps.map Prod.fst).Nodup)
    (hok : get_parameters α (true, ps) values = .ok (true, final)) :
    (∀ k : String, (∀ p ∈ ps, p.1 ≠ k) →
      assocFind final k = assocFind values k) ∧
    (∀ (k : String) (v : ParameterValue) (a : α), (k, v) ∈ ps →
      (ParameterConv.getValue v : Except ParamError α) = .ok a →
      assocFind final k = some a) := by
  have hmerge : merge_fetched α ps values = .ok final := by
    unfold get_parameters at hok
    rcases hm : merge_fetched α ps values with e | out
    · rw [hm] at hok
      simp [except_bind_error] at hok
    · rw [hm] at hok
      simp only [if_true, except_bind_ok, except_pure_eq, Except.ok.injEq,
        Prod.mk.injEq] at hok
      rw [hok.2]
  exact ⟨fun k hk => merge_fetched_ok_notin α ps values final k hk hmerge,
    fun k v a hm hg => merge_fetched_ok_mem α ps values final k v a hnd hm hg hmerge⟩

/-- Witness for C10 at a concrete input: fetching `a = 3` into a mapping holding
`b = 7` leaves the final mapping with `a` bound to `3`. -/
theorem get_parameters_success_merge_witness :
    assocFind ([("b", (7 : Int)), ("a", 3)] : List (String × Int)) "a" = some 3 :=
  (get_parameters_success_merge Int [("a", ParameterValue.ofInt 3)]
      [("b", 7)] [("b", 7), ("a", 3)] (by decide) (by rfl)).2
    "a" (ParameterValue.ofInt 3) 3 (by decide) rfl

end RclcppLifecycle
